import Mathlib

/-!
Verification of the Tableau automation scripts (export pipeline in
`exportAs 3.py`, account deactivation in `text.py`) against their
natural-language specification.  The Python functions are shallowly
embedded as executable Lean definitions; side effects (file writes,
server calls) are made explicit as data.
-/

namespace Automations

/-! ## Workbook resolution (`get_workbook`, exportAs lines 58-84)

The script raises Python `FileExistsError` with a "not found" message when
no workbook matches and with a "multiple workbooks" message when several
match; the spec taxonomy names these two distinct outcomes `NotFoundError`
and `AmbiguousError`, which we keep as the two error constructors. -/

structure Workbook where
  name : String
  project_name : String
  id : Nat
deriving DecidableEq, Inhabited

inductive WbError where
  | notFound
  | ambiguous
deriving DecidableEq

/-- Predicate used by the list comprehension in `get_workbook`:
`workbook.name == workbook_name and workbook.project_name == project_name`. -/
def wbMatch (workbook_name project_name : String) (w : Workbook) : Bool :=
  w.name == workbook_name && w.project_name == project_name

/-- Embedding of `get_workbook`: filter all workbooks by exact name and
project match; 0 matches raise (not found), more than one match raises
(ambiguous), otherwise `matching_workbooks[0]` is returned. -/
def get_workbook (all_workbooks : List Workbook)
    (workbook_name project_name : String) : Except WbError Workbook :=
  let matching_workbooks :=
    all_workbooks.filter (wbMatch workbook_name project_name)
  if matching_workbooks.length == 0 then .error .notFound
  else if matching_workbooks.length > 1 then .error .ambiguous
  else .ok (matching_workbooks.headD default)

/-! ## Tile geometry (`split_image`, exportAs lines 359-396) -/

/-- Crop box as passed to `img.crop((left, upper, right, lower))`. -/
structure Box where
  left : Nat
  upper : Nat
  right : Nat
  lower : Nat
deriving DecidableEq

/-- Crop box computed by the loop body of `split_image` for a given tile:
`tile_width = width // cols`, `tile_height = height // rows`; row 0 uses the
full image width, other rows use the `tile_width` grid. -/
def tileBox (width height rows cols row col : Nat) : Box :=
  let tile_width := width / cols
  let tile_height := height / rows
  if row == 0 then
    { left := 0, upper := row * tile_height,
      right := width, lower := row * tile_height + tile_height }
  else
    { left := col * tile_width, upper := row * tile_height,
      right := col * tile_width + tile_width,
      lower := row * tile_height + tile_height }

/-! ## Tile index (`split_image` + `generate_slide_imgs`, lines 359-416) -/

/-- Tile file name `f"{img_name}_tile_{row}_{col}.png"`. -/
def tileName (img_name : String) (row col : Nat) : String :=
  img_name ++ "_tile_" ++ toString row ++ "_" ++ toString col ++ ".png"

/-- Names appended to `tmp_index` by `split_image`, in loop order:
`for row in range(rows): for col in range(cols):` skipping the
`row==0 and col==1` tile. -/
def split_image_index (rows cols : Nat) (img_name : String) : List String :=
  (List.range rows).flatMap fun row =>
    (List.range cols).filterMap fun col =>
      if row == 0 && col == 1 then none
      else some (tileName img_name row col)

/-- Character-level helper for `baseName`: the segment of the file name
before the first dot (all of it when no dot occurs), which is what
`img_file.split(".")[0]` returns. -/
def baseNameChars : List Char → List Char
  | [] => []
  | c :: rest => if c = '.' then [] else c :: baseNameChars rest

/-- Base name used by `generate_slide_imgs`: `img_file.split(".")[0]`. -/
def baseName (img_file : String) : String :=
  String.mk (baseNameChars img_file.data)

/-- Embedding of `generate_slide_imgs`: split every indexed image into a
2x2 grid and replace `img_indexing` by the accumulated `tmp_index`. -/
def generate_slide_imgs (img_indexing : List String) : List String :=
  img_indexing.flatMap fun img_file =>
    split_image_index 2 2 (baseName img_file)

/-! ## View export (`export_images` lines 129-157, `get_images` 160-171) -/

/-- Loop of `export_images`: walk the workbook views in workbook order,
skip a view whose name is not in `ppt_slides`, and append
`f"{view_name}.png"` to the running index for each exported view. -/
def export_images_loop (ppt_slides : List String) (img_indexing : List String) :
    List String → List String
  | [] => img_indexing
  | view_name :: rest =>
    if !(ppt_slides.contains view_name) then
      export_images_loop ppt_slides img_indexing rest
    else
      export_images_loop ppt_slides (img_indexing ++ [view_name ++ ".png"]) rest

/-- Embedding of `export_images` starting from the empty global index. -/
def export_images (workbook_views ppt_slides : List String) : List String :=
  export_images_loop ppt_slides [] workbook_views

/-- Embedding of `get_images`: the directory listing code is commented out;
the function returns the accumulated `img_indexing` regardless of what is
in the directory. -/
def get_images (_dir_listing : List String) (img_indexing : List String) :
    List String :=
  img_indexing

/-- Tile index reaching the deck assemblers: export then split. -/
def pipelineTileIndex (workbook_views ppt_slides : List String) : List String :=
  generate_slide_imgs (export_images workbook_views ppt_slides)

/-- Modelled from the spec wording, for comparison only: the spec invariant
concatenates each view's tiles "in slideViews order", i.e. in the order the
views are requested in the config, not workbook order. -/
def specTileIndex (slide_views : List String) : List String :=
  slide_views.flatMap fun v => split_image_index 2 2 v

/-! ## Deck assembly layout (`add_image_to_ppt` lines 192-227,
`add_image_to_pdf` lines 302-332)

Lengths are rationals: python-pptx positions are EMU integers divided with
float division, fpdf positions are millimetre floats; both computations are
exact arithmetic on the inputs, which ℚ captures. -/

/-- EMU per inch, the unit of `pptx.util.Inches`. -/
def emu_per_inch : ℚ := 914400

/-- Position and size handed to `add_picture` / `pdf.image`. -/
structure Placement where
  left : ℚ
  top : ℚ
  w : ℚ
  h : ℚ
deriving DecidableEq

/-- Embedding of the layout arithmetic of `add_image_to_ppt`:
`scale = min(Inches(8)/img_width, Inches(6)/img_height)` applied to both
dimensions, with the result centered on the slide. -/
def add_image_to_ppt (slide_width slide_height img_width img_height : ℚ) :
    Placement :=
  let max_width : ℚ := 8 * emu_per_inch
  let max_height : ℚ := 6 * emu_per_inch
  let width_scale := max_width / img_width
  let height_scale := max_height / img_height
  let scale := min width_scale height_scale
  { left := (slide_width - img_width * scale) / 2
    top := (slide_height - img_height * scale) / 2
    w := img_width * scale
    h := img_height * scale }

/-- Embedding of the layout arithmetic of `add_image_to_pdf`: the image is
rescaled only when `img_width > page_width or img_height > page_height`,
using the smaller of the two page-fit ratios, then centered. -/
def add_image_to_pdf (page_width page_height img_width img_height : ℚ) :
    Placement :=
  let wh : ℚ × ℚ :=
    if img_width > page_width ∨ img_height > page_height then
      let ratio_width := page_width / img_width
      let ratio_height := page_height / img_height
      if ratio_width < ratio_height then
        (page_width, img_height * ratio_width)
      else
        (img_width * ratio_height, page_height)
    else
      (img_width, img_height)
  { left := (page_width - wh.1) / 2
    top := (page_height - wh.2) / 2
    w := wh.1
    h := wh.2 }

/-! ## Config loading (`load_config` lines 87-102 and the key accesses in
`__main__` lines 443-460) -/

/-- One element of the `filters` array of the JSON config. -/
structure FilterSpec where
  description : String
  values : List String
deriving DecidableEq

/-- Parsed JSON config object.  An `Option` field is `none` when that key is
absent from the JSON object; the `filters` value itself may be JSON `null`
(inner `none`), which Python treats as falsy in `get_image_export`. -/
structure RawConfig where
  workbook_name : Option String
  project_name : Option String
  slide_views : Option (List String)
  filters : Option (Option (List FilterSpec))
deriving DecidableEq

/-- Spec error taxonomy for the config stage.  The script itself re-raises
the underlying Python exception (`OSError`/`JSONDecodeError` out of
`load_config`, `KeyError` out of the `config[...]` subscripts in
`__main__`); the constructors record which raise site fired. -/
inductive ConfigError where
  | loadError
  | keyError (key : String)
deriving DecidableEq

/-- Embedding of `load_config`: the file is opened and parsed, and any
failure (missing file, unreadable, invalid JSON — modelled as `none`) is
printed and re-raised. -/
def load_config (parsed : Option RawConfig) : Except ConfigError RawConfig :=
  match parsed with
  | none => .error .loadError
  | some config => .ok config

/-- A Python dict subscript `config[key]`: raises `KeyError` when absent. -/
def getKey {α : Type} (key : String) (v : Option α) : Except ConfigError α :=
  match v with
  | none => .error (.keyError key)
  | some x => .ok x

/-- Config data the run actually uses once all subscripts succeeded. -/
structure RunConfig where
  workbook_name : String
  project_name : String
  slide_views : List String
  filters : Option (List FilterSpec)
deriving DecidableEq

/-- Config accesses of `__main__`: `load_config` (line 444), the three
required subscripts (lines 445-447) and the `config['filters']` subscript
(line 460, just before image export).  All four subscripts raise `KeyError`
on an absent key; nothing is defaulted. -/
def main_config (parsed : Option RawConfig) : Except ConfigError RunConfig :=
  Except.bind (load_config parsed) fun config =>
  Except.bind (getKey "workbook_name" config.workbook_name) fun workbook_name =>
  Except.bind (getKey "project_name" config.project_name) fun project_name =>
  Except.bind (getKey "slide_views" config.slide_views) fun slide_views =>
  Except.bind (getKey "filters" config.filters) fun filters =>
  Except.ok ⟨workbook_name, project_name, slide_views, filters⟩

/-- Embedding of `get_image_export` (lines 105-126): the list of
`(description, comma-joined values)` pairs passed to `image_export.vf`.
A falsy `filters` (JSON `null` or an empty array) applies no filter. -/
def get_image_export (filters : Option (List FilterSpec)) :
    List (String × String) :=
  match filters with
  | none => []
  | some fs => fs.map fun f => (f.description, String.intercalate "," f.values)

/-! ## Scratch files and cleanup (`__main__` lines 463-503) -/

/-- Directories touched by one run: the per-run scratch directory
`img/<export_id>` and its `slide_imgs` subdirectory. -/
inductive Dir where
  | scratch (export_id : String)
  | slideImgs (export_id : String)
deriving DecidableEq

/-- A file on disk, as directory plus file name. -/
structure FileEntry where
  dir : Dir
  fname : String
deriving DecidableEq

/-- Files written by `export_images`: one `.png` and one `.csv` per
exported view, in the scratch directory. -/
def export_writes (export_id : String) (workbook_views ppt_slides : List String) :
    List FileEntry :=
  (workbook_views.filter fun v => ppt_slides.contains v).flatMap fun v =>
    [⟨Dir.scratch export_id, v ++ ".png"⟩, ⟨Dir.scratch export_id, v ++ ".csv"⟩]

/-- Files written by `generate_slide_imgs`: every indexed tile, in the
`slide_imgs` subdirectory. -/
def tile_writes (export_id : String) (workbook_views ppt_slides : List String) :
    List FileEntry :=
  (pipelineTileIndex workbook_views ppt_slides).map fun t =>
    ⟨Dir.slideImgs export_id, t⟩

/-- STEP 7 of `__main__`: `os.listdir(img_dir)` / `os.remove` / `os.rmdir`
delete exactly the files of `img_dir` — which, after the reassignment in
STEP 5.3, is the `slide_imgs` subdirectory, not the run's scratch
directory. -/
def cleanup_files (files : List FileEntry) (img_dir : Dir) : List FileEntry :=
  files.filter fun f => ¬ f.dir = img_dir

/-- Files left on disk after a successful run: everything written during
the run minus what STEP 7 removes. -/
def run_leftover_files (export_id : String)
    (workbook_views ppt_slides : List String) : List FileEntry :=
  cleanup_files
    (export_writes export_id workbook_views ppt_slides
      ++ tile_writes export_id workbook_views ppt_slides)
    (Dir.slideImgs export_id)

/-! ## Control-flow traces of the two `__main__` blocks

The export script is a straight line with no try/finally: an exception in
step k aborts the run after step k starts, and nothing later runs.  The
deactivation script wraps each site's work in try/except/finally, so its
`sign_out` runs on every path.  A trace is the list of steps attempted. -/

/-- Top-level statements of the exportAs `__main__`, in program order. -/
def export_main_steps : List String :=
  ["connect_tableau", "load_config", "get_workbook", "populate_views",
   "get_image_export", "make_img_dir", "export_images", "generate_slide_imgs",
   "assemble_deck", "cleanup", "sign_out"]

/-- Steps attempted by the exportAs `__main__` when step `k` (if any)
raises: execution reaches the failing step and stops there, since the
script has no try/except/finally around its body. -/
def export_main_trace (failAt : Option Nat) : List String :=
  match failAt with
  | none => export_main_steps
  | some k => export_main_steps.take (k + 1)

/-- Per-site body statements of the deactivation script, in program order. -/
def deactivation_site_steps : List String :=
  ["disable_minimum_site_role", "get_users", "filter_viewers",
   "get_inactive_users", "save_info", "deactivate_users",
   "enable_minimum_site_role"]

/-- Steps attempted for one site of the deactivation script when body step
`k` (if any) raises: the except clause prints the error and the finally
clause signs out on both paths. -/
def deactivation_site_trace (failAt : Option Nat) : List String :=
  (match failAt with
   | none => deactivation_site_steps
   | some k => deactivation_site_steps.take (k + 1) ++ ["print_error"])
  ++ ["sign_out"]

/-! ## Account deactivation (`text.py`)

Timestamps are integers in seconds; `timedelta.days` is floor division of
the difference by 86400, i.e. `Int.fdiv`. -/

/-- Days threshold, `INACTIVE_THRESHOLD = 500`. -/
def INACTIVE_THRESHOLD : Int := 500

def seconds_per_day : Int := 86400

/-- A site user as used by the script: `last_login` is `none` for a user
who has never signed in. -/
structure User where
  id : Nat
  name : String
  site_role : String
  last_login : Option Int
deriving DecidableEq

/-- Embedding of `get_inactive_users` (text.py lines 38-49): keep a user
when `last_login is not None` and
`(now - last_login).days > INACTIVE_THRESHOLD`. -/
def get_inactive_users (now : Int) (viewer_list : List User) : List User :=
  viewer_list.filter fun user =>
    match user.last_login with
    | none => false
    | some t => Int.fdiv (now - t) seconds_per_day > INACTIVE_THRESHOLD

/-- TASK 2 of the `__main__` (lines 124-128): keep users whose
`site_role == "Viewer"`. -/
def viewer_filter (user_list : List User) : List User :=
  user_list.filter fun user => user.site_role == "Viewer"

/-- Embedding of `deactivate_users` (lines 71-81): each listed user's
`site_role` is set to `"Unlicensed"` and pushed to the server. -/
def deactivate_users (inactive_users : List User) : List User :=
  inactive_users.map fun user => { user with site_role := "Unlicensed" }

/-! ## Theorems -/

/-- Unfolding of the `export_images` loop: the index accumulates, in
workbook order, one `.png` name per view whose name is in `ppt_slides`. -/
lemma export_images_loop_eq (ppt_slides idx : List String) (views : List String) :
    export_images_loop ppt_slides idx views =
      idx ++ (views.filter fun v => ppt_slides.contains v).map (fun v => v ++ ".png") := by
  induction views generalizing idx with
  | nil => simp [export_images_loop]
  | cons v rest ih =>
    by_cases h : v ∈ ppt_slides
    · simp [export_images_loop, List.elem_iff, h, ih]
    · simp [export_images_loop, List.elem_iff, h, ih]

/-- When both lists have no duplicates and every requested name occurs
among the views, the views that pass the membership test are exactly as
many as the requested names. -/
lemma filter_contains_length (views slides : List String)
    (hv : views.Nodup) (hs : slides.Nodup) (hall : ∀ v ∈ slides, v ∈ views) :
    (views.filter fun v => slides.contains v).length = slides.length := by
  have hperm : (views.filter fun v => slides.contains v).Perm slides := by
    rw [List.perm_ext_iff_of_nodup (hv.filter _) hs]
    intro a
    simp only [List.mem_filter, List.contains, List.elem_iff]
    exact ⟨fun h => h.2, fun h => ⟨hall a h, h⟩⟩
  exact hperm.length_eq

/-- A flat map producing three elements per input triples the length. -/
lemma length_flatMap_three {A B : Type} (l : List A) (f g h : A → B) :
    (l.flatMap fun a => [f a, g a, h a]).length = 3 * l.length := by
  induction l with
  | nil => simp
  | cons a rest ih =>
    simp only [List.flatMap_cons, List.length_append, ih, List.length_cons,
      List.length_nil]
    omega

/-- A 2x2 split emits exactly the three tiles (0,0), (1,0), (1,1), in
row-major order with (0,1) skipped. -/
lemma split_image_index_two (b : String) :
    split_image_index 2 2 b = [tileName b 0 0, tileName b 1 0, tileName b 1 1] := rfl

/-- C1 counterexample: with the views appearing on the workbook in the
order B, A and the config requesting A, B (both present, no duplicates),
the tile index produced by the split stage is B's tiles followed by A's
tiles — not the concatenation in slideViews order that the claim states. -/
theorem C1_counterexample :
    pipelineTileIndex ["B", "A"] ["A", "B"] ≠ specTileIndex ["A", "B"] := by
  decide

/-- C1 (amended): for a run whose config requests N distinct view names
that are all present on the workbook (workbook view names being distinct),
the tile index produced by the split stage is the concatenation, in the
order the views appear on the workbook, of each view's tiles in row-major
order with the (row 0, col 1) tile omitted, and it has exactly N * 3
entries. -/
theorem C1_tile_index (workbook_views slide_views : List String)
    (hv : workbook_views.Nodup) (hs : slide_views.Nodup)
    (hall : ∀ v ∈ slide_views, v ∈ workbook_views) :
    pipelineTileIndex workbook_views slide_views =
      (workbook_views.filter fun v => slide_views.contains v).flatMap
        (fun v => [tileName (baseName (v ++ ".png")) 0 0,
                   tileName (baseName (v ++ ".png")) 1 0,
                   tileName (baseName (v ++ ".png")) 1 1]) ∧
    (pipelineTileIndex workbook_views slide_views).length = slide_views.length * 3 := by
  have hexp : export_images workbook_views slide_views =
      (workbook_views.filter fun v => slide_views.contains v).map (fun v => v ++ ".png") :=
    export_images_loop_eq _ _ _
  have heq : pipelineTileIndex workbook_views slide_views =
      (workbook_views.filter fun v => slide_views.contains v).flatMap
        (fun v => [tileName (baseName (v ++ ".png")) 0 0,
                   tileName (baseName (v ++ ".png")) 1 0,
                   tileName (baseName (v ++ ".png")) 1 1]) := by
    rw [pipelineTileIndex, generate_slide_imgs, hexp, List.flatMap_map]
    simp only [split_image_index_two]
  refine ⟨heq, ?_⟩
  have hlen : (workbook_views.filter fun v => slide_views.contains v).length
      = slide_views.length := filter_contains_length _ _ hv hs hall
  rw [heq, length_flatMap_three, hlen, Nat.mul_comm]

/-- C1 witness: one requested view present on a one-view workbook yields a
three-entry tile index. -/
theorem C1_tile_index_witness :
    (pipelineTileIndex ["A"] ["A"]).length = (["A"] : List String).length * 3 :=
  (C1_tile_index ["A"] ["A"] (by decide) (by decide) (by decide)).2

/-- C2: workbook resolution over the full workbook list fails with the
not-found error on zero matches, fails with the ambiguous error on two or
more matches, returns the single match otherwise, and its result does not
depend on the order of the workbook list. -/
theorem C2_workbook_resolution (all_workbooks : List Workbook)
    (workbook_name project_name : String) :
    (all_workbooks.filter (wbMatch workbook_name project_name) = [] →
      get_workbook all_workbooks workbook_name project_name = .error .notFound) ∧
    (2 ≤ (all_workbooks.filter (wbMatch workbook_name project_name)).length →
      get_workbook all_workbooks workbook_name project_name = .error .ambiguous) ∧
    (∀ w, all_workbooks.filter (wbMatch workbook_name project_name) = [w] →
      get_workbook all_workbooks workbook_name project_name = .ok w ∧
      w ∈ all_workbooks ∧ wbMatch workbook_name project_name w = true) ∧
    (∀ other, all_workbooks.Perm other →
      get_workbook all_workbooks workbook_name project_name =
        get_workbook other workbook_name project_name) := by
  refine ⟨?_, ?_, ?_, ?_⟩
  · intro h
    simp [get_workbook, h]
  · intro h
    have h0 : ((all_workbooks.filter (wbMatch workbook_name project_name)).length == 0)
        = false := by
      simp only [beq_eq_false_iff_ne, ne_eq]
      omega
    have h1 : (all_workbooks.filter (wbMatch workbook_name project_name)).length > 1 := by
      omega
    simp [get_workbook, h0, h1]
  · intro w h
    refine ⟨?_, ?_, ?_⟩
    · simp [get_workbook, h]
    · have := h ▸ List.mem_singleton_self w
      exact (List.mem_filter.mp this).1
    · have := h ▸ List.mem_singleton_self w
      exact (List.mem_filter.mp this).2
  · intro other hperm
    have hp : (all_workbooks.filter (wbMatch workbook_name project_name)).Perm
        (other.filter (wbMatch workbook_name project_name)) :=
      hperm.filter _
    have hlen := hp.length_eq
    rcases Nat.lt_or_ge (other.filter (wbMatch workbook_name project_name)).length 2
      with hsmall | hbig
    · have h01 : (other.filter (wbMatch workbook_name project_name)).length = 0 ∨
          (other.filter (wbMatch workbook_name project_name)).length = 1 := by
        omega
      rcases h01 with h2 | h2
      · have ha : all_workbooks.filter (wbMatch workbook_name project_name) = [] :=
          List.length_eq_zero.mp (by omega)
        have hb : other.filter (wbMatch workbook_name project_name) = [] :=
          List.length_eq_zero.mp h2
        simp [get_workbook, ha, hb]
      · obtain ⟨w, hw⟩ := List.length_eq_one.mp h2
        have ha : all_workbooks.filter (wbMatch workbook_name project_name) = [w] :=
          List.perm_singleton.mp (hw ▸ hp)
        simp [get_workbook, ha, hw]
    · have e0 : (all_workbooks.filter (wbMatch workbook_name project_name)).length > 1 := by
        omega
      have e1 : (other.filter (wbMatch workbook_name project_name)).length > 1 := by
        omega
      have f0 : ((all_workbooks.filter (wbMatch workbook_name project_name)).length == 0)
          = false := by
        simp only [beq_eq_false_iff_ne, ne_eq]
        omega
      have f1 : ((other.filter (wbMatch workbook_name project_name)).length == 0)
          = false := by
        simp only [beq_eq_false_iff_ne, ne_eq]
        omega
      simp [get_workbook, e0, e1, f0, f1]

/-- C2 witness: a two-element list where exactly one workbook matches. -/
theorem C2_workbook_resolution_witness :
    get_workbook
      [⟨"Sales", "Finance", 1⟩, ⟨"Sales", "Marketing", 2⟩] "Sales" "Finance"
      = .ok ⟨"Sales", "Finance", 1⟩ :=
  ((C2_workbook_resolution
      [⟨"Sales", "Finance", 1⟩, ⟨"Sales", "Marketing", 2⟩]
      "Sales" "Finance").2.2.1 ⟨"Sales", "Finance", 1⟩ (by decide)).1

/-- The PDF placement never enlarges an image: both produced dimensions
stay at or below the original dimensions. -/
lemma pdf_never_up (page_width page_height img_width img_height : ℚ)
    (hiw : 0 < img_width) (hih : 0 < img_height) :
    (add_image_to_pdf page_width page_height img_width img_height).w ≤ img_width ∧
    (add_image_to_pdf page_width page_height img_width img_height).h ≤ img_height := by
  simp only [add_image_to_pdf]
  split_ifs with hex hrat
  · have hrw1 : page_width / img_width < 1 := by
      rcases hex with h | h
      · exact (div_lt_one hiw).mpr h
      · calc page_width / img_width < page_height / img_height := hrat
          _ < 1 := (div_lt_one hih).mpr h
    constructor
    · have : page_width < img_width := (div_lt_one hiw).mp hrw1
      simpa using this.le
    · simp only
      calc img_height * (page_width / img_width) ≤ img_height * 1 :=
            mul_le_mul_of_nonneg_left hrw1.le hih.le
        _ = img_height := by ring
  · have hrh1 : page_height / img_height < 1 := by
      rcases hex with h | h
      · have hrw : page_width / img_width < 1 := (div_lt_one hiw).mpr h
        exact lt_of_le_of_lt (not_lt.mp hrat) hrw
      · exact (div_lt_one hih).mpr h
    constructor
    · simp only
      calc img_width * (page_height / img_height) ≤ img_width * 1 :=
            mul_le_mul_of_nonneg_left hrh1.le hiw.le
        _ = img_width := by ring
    · have : page_height < img_height := (div_lt_one hih).mp hrh1
      simpa using this.le
  · simp

/-- C4 counterexample: the slide-deck variant scales a 100-by-100 pixel
image up — the placed width strictly exceeds the original width — because
`add_image_to_ppt` applies `min(width_scale, height_scale)` with no cap at
1 (slide size 10-by-7.5 inches in EMU). -/
theorem C4_counterexample :
    100 < (add_image_to_ppt 9144000 6858600 100 100).w := by
  norm_num [add_image_to_ppt, emu_per_inch, min_def]

/-- C4 (amended): both variants center the image horizontally and
vertically.  The slide variant always scales by the minimum of the
width-fit and height-fit ratios of the fixed 8-by-6-inch content area
(which enlarges images smaller than that area); the PDF variant never
scales up, and when the image exceeds the page it scales by the minimum of
the width-fit and height-fit ratios of the page. -/
theorem C4_layout (slide_width slide_height page_width page_height
    img_width img_height : ℚ)
    (hiw : 0 < img_width) (hih : 0 < img_height)
    (hpw : 0 < page_width) (hph : 0 < page_height) :
    (add_image_to_ppt slide_width slide_height img_width img_height).w
      = img_width * min (8 * emu_per_inch / img_width) (6 * emu_per_inch / img_height) ∧
    (add_image_to_ppt slide_width slide_height img_width img_height).h
      = img_height * min (8 * emu_per_inch / img_width) (6 * emu_per_inch / img_height) ∧
    2 * (add_image_to_ppt slide_width slide_height img_width img_height).left
      + (add_image_to_ppt slide_width slide_height img_width img_height).w = slide_width ∧
    2 * (add_image_to_ppt slide_width slide_height img_width img_height).top
      + (add_image_to_ppt slide_width slide_height img_width img_height).h = slide_height ∧
    (add_image_to_pdf page_width page_height img_width img_height).w ≤ img_width ∧
    (add_image_to_pdf page_width page_height img_width img_height).h ≤ img_height ∧
    ((page_width < img_width ∨ page_height < img_height) →
      (add_image_to_pdf page_width page_height img_width img_height).w
        = img_width * min (page_width / img_width) (page_height / img_height) ∧
      (add_image_to_pdf page_width page_height img_width img_height).h
        = img_height * min (page_width / img_width) (page_height / img_height)) ∧
    2 * (add_image_to_pdf page_width page_height img_width img_height).left
      + (add_image_to_pdf page_width page_height img_width img_height).w = page_width ∧
    2 * (add_image_to_pdf page_width page_height img_width img_height).top
      + (add_image_to_pdf page_width page_height img_width img_height).h = page_height := by
  refine ⟨rfl, rfl, by simp only [add_image_to_ppt]; ring,
    by simp only [add_image_to_ppt]; ring,
    (pdf_never_up _ _ _ _ hiw hih).1, (pdf_never_up _ _ _ _ hiw hih).2,
    ?_, by simp only [add_image_to_pdf]; ring, by simp only [add_image_to_pdf]; ring⟩
  intro hex
  simp only [add_image_to_pdf, gt_iff_lt, if_pos hex]
  rcases lt_or_le (page_width / img_width) (page_height / img_height) with hrat | hrat
  · rw [if_pos hrat, min_eq_left hrat.le]
    constructor
    · simp only
      field_simp
    · simp only
  · rw [if_neg (not_lt.mpr hrat), min_eq_right hrat]
    constructor
    · simp only
    · simp only
      field_simp

/-- C4 witness: a 12000-by-3000 image on the default 10-by-7.5-inch slide
is placed at the width dictated by the smaller fit ratio. -/
theorem C4_layout_witness :
    (add_image_to_ppt 9144000 6858600 12000 3000).w
      = 12000 * min (8 * emu_per_inch / 12000) (6 * emu_per_inch / 3000) :=
  (C4_layout 9144000 6858600 210 297 12000 3000
    (by norm_num) (by norm_num) (by norm_num) (by norm_num)).1

/-- C5: in both variants the placed image stays inside the fixed content
bounds (8-by-6 inches for slides, the page for PDF) and the placed
dimensions preserve the original aspect ratio exactly, stated by
cross-multiplication. -/
theorem C5_bounds_aspect (slide_width slide_height page_width page_height
    img_width img_height : ℚ)
    (hiw : 0 < img_width) (hih : 0 < img_height)
    (hpw : 0 < page_width) (hph : 0 < page_height) :
    (add_image_to_ppt slide_width slide_height img_width img_height).w
      ≤ 8 * emu_per_inch ∧
    (add_image_to_ppt slide_width slide_height img_width img_height).h
      ≤ 6 * emu_per_inch ∧
    (add_image_to_ppt slide_width slide_height img_width img_height).w * img_height
      = (add_image_to_ppt slide_width slide_height img_width img_height).h * img_width ∧
    (add_image_to_pdf page_width page_height img_width img_height).w ≤ page_width ∧
    (add_image_to_pdf page_width page_height img_width img_height).h ≤ page_height ∧
    (add_image_to_pdf page_width page_height img_width img_height).w * img_height
      = (add_image_to_pdf page_width page_height img_width img_height).h * img_width := by
  refine ⟨?_, ?_, by simp only [add_image_to_ppt]; ring, ?_, ?_, ?_⟩
  · simp only [add_image_to_ppt]
    calc img_width * min (8 * emu_per_inch / img_width) (6 * emu_per_inch / img_height)
        ≤ img_width * (8 * emu_per_inch / img_width) :=
          mul_le_mul_of_nonneg_left (min_le_left _ _) hiw.le
      _ = 8 * emu_per_inch := by field_simp
  · simp only [add_image_to_ppt]
    calc img_height * min (8 * emu_per_inch / img_width) (6 * emu_per_inch / img_height)
        ≤ img_height * (6 * emu_per_inch / img_height) :=
          mul_le_mul_of_nonneg_left (min_le_right _ _) hih.le
      _ = 6 * emu_per_inch := by field_simp
  · simp only [add_image_to_pdf]
    split_ifs with hex hrat
    · exact le_rfl
    · simp only
      calc img_width * (page_height / img_height)
          ≤ img_width * (page_width / img_width) :=
            mul_le_mul_of_nonneg_left (not_lt.mp hrat) hiw.le
        _ = page_width := by field_simp
    · simp only
      rcases not_or.mp hex with ⟨h1, _⟩
      exact not_lt.mp h1
  · simp only [add_image_to_pdf]
    split_ifs with hex hrat
    · simp only
      calc img_height * (page_width / img_width)
          ≤ img_height * (page_height / img_height) :=
            mul_le_mul_of_nonneg_left hrat.le hih.le
        _ = page_height := by field_simp
    · exact le_rfl
    · simp only
      rcases not_or.mp hex with ⟨_, h2⟩
      exact not_lt.mp h2
  · simp only [add_image_to_pdf]
    split_ifs with hex hrat
    · simp only
      field_simp
      ring
    · simp only
      field_simp
      ring
    · simp only
      ring

/-- C5 witness: a 12000-by-3000 image stays within the 8-by-6-inch slide
content area. -/
theorem C5_bounds_aspect_witness :
    (add_image_to_ppt 9144000 6858600 12000 3000).w ≤ 8 * emu_per_inch :=
  (C5_bounds_aspect 9144000 6858600 210 297 12000 3000
    (by norm_num) (by norm_num) (by norm_num) (by norm_num)).1

/-- C3: for a 2x2 split of a W-by-H image, the row-0 tile spans the full
width W and height H / 2, each row-1 tile is (W / 2)-by-(H / 2), and the
lower-right tile ends at 2 * (W / 2), 2 * (H / 2): remainder pixels of an
odd dimension are dropped, not redistributed. -/
theorem C3_tile_geometry (W H : Nat) :
    (tileBox W H 2 2 0 0).right - (tileBox W H 2 2 0 0).left = W ∧
    (tileBox W H 2 2 0 0).lower - (tileBox W H 2 2 0 0).upper = H / 2 ∧
    (tileBox W H 2 2 1 0).right - (tileBox W H 2 2 1 0).left = W / 2 ∧
    (tileBox W H 2 2 1 0).lower - (tileBox W H 2 2 1 0).upper = H / 2 ∧
    (tileBox W H 2 2 1 1).right - (tileBox W H 2 2 1 1).left = W / 2 ∧
    (tileBox W H 2 2 1 1).lower - (tileBox W H 2 2 1 1).upper = H / 2 ∧
    (tileBox W H 2 2 1 1).right = 2 * (W / 2) ∧
    (tileBox W H 2 2 1 1).lower = 2 * (H / 2) := by
  simp [tileBox]
  omega

/-- Config with all three required keys present but no `filters` key. -/
def cfgNoFilters : RawConfig :=
  { workbook_name := some "Sales"
    project_name := some "Finance"
    slide_views := some ["Overview"]
    filters := none }

/-- C6 counterexample: a config that has every required key but omits the
optional-per-the-claim `filters` key makes the run fail (the
`config['filters']` subscript at STEP 4 raises `KeyError`) instead of
proceeding with no filtering. -/
theorem C6_counterexample :
    (main_config (some cfgNoFilters)).isOk = false ∧
    cfgNoFilters.workbook_name.isSome = true ∧
    cfgNoFilters.project_name.isSome = true ∧
    cfgNoFilters.slide_views.isSome = true := by
  decide

/-- C6 (amended): the config stage fails exactly when the file cannot be
parsed or when any of `workbook_name`, `project_name`, `slide_views` or
`filters` is absent; required fields are never defaulted (on success every
field comes verbatim from the config); a `filters` key present with value
`null` (or an empty array) means no filter is applied. -/
theorem C6_config (parsed : Option RawConfig) :
    ((main_config parsed).isOk = false ↔
      parsed = none ∨ ∃ c, parsed = some c ∧ (c.workbook_name = none ∨
        c.project_name = none ∨ c.slide_views = none ∨ c.filters = none)) ∧
    (∀ c r, parsed = some c → main_config parsed = .ok r →
      c.workbook_name = some r.workbook_name ∧
      c.project_name = some r.project_name ∧
      c.slide_views = some r.slide_views ∧
      c.filters = some r.filters) ∧
    (∀ r, main_config parsed = .ok r → r.filters = none →
      get_image_export r.filters = []) ∧
    get_image_export (some []) = [] := by
  refine ⟨?_, ?_, ?_, rfl⟩
  · rcases parsed with _ | ⟨wn, pn, sv, fl⟩
    · simp [main_config, load_config, Except.bind, Except.isOk, Except.toBool]
    · rcases wn with _ | wn <;> rcases pn with _ | pn <;>
        rcases sv with _ | sv <;> rcases fl with _ | fl <;>
        simp [main_config, load_config, getKey, Except.bind,
          Except.isOk, Except.toBool]
  · intro c r hc hr
    subst hc
    rcases c with ⟨wn, pn, sv, fl⟩
    rcases wn with _ | wn <;> rcases pn with _ | pn <;>
      rcases sv with _ | sv <;> rcases fl with _ | fl <;>
      simp only [main_config, load_config, getKey, Except.bind] at hr <;>
      cases hr <;>
      exact ⟨rfl, rfl, rfl, rfl⟩
  · intro r hr hfl
    rw [hfl]
    rfl

/-- C6 witness: a fully populated config (with `filters` explicitly
`null`) passes the stage with its fields taken verbatim. -/
theorem C6_config_witness :
    get_image_export
      (RunConfig.mk "Sales" "Finance" ["Overview"] none).filters = [] :=
  (C6_config (some ⟨some "Sales", some "Finance", some ["Overview"], some none⟩)).2.2.1
    (RunConfig.mk "Sales" "Finance" ["Overview"] none) rfl rfl

/-- C7: the exporter walks the views in workbook order and exports exactly
those whose name is in the requested list, accumulating one `.png` name
per exported view; `get_images` hands later stages that accumulated index
unchanged, whatever the directory listing holds; and the result depends on
the requested names only as a set (the requested order is irrelevant). -/
theorem C7_export_views (workbook_views ppt_slides : List String) :
    export_images workbook_views ppt_slides
      = (workbook_views.filter fun v => ppt_slides.contains v).map
          (fun v => v ++ ".png") ∧
    (∀ dir_listing, get_images dir_listing (export_images workbook_views ppt_slides)
      = export_images workbook_views ppt_slides) ∧
    (∀ other_slides : List String, (∀ s, s ∈ other_slides ↔ s ∈ ppt_slides) →
      export_images workbook_views other_slides
        = export_images workbook_views ppt_slides) := by
  refine ⟨export_images_loop_eq _ _ _, fun _ => rfl, ?_⟩
  intro other_slides hset
  have h1 : export_images workbook_views other_slides
      = (workbook_views.filter fun v => other_slides.contains v).map
          (fun v => v ++ ".png") :=
    export_images_loop_eq _ _ _
  have h2 : export_images workbook_views ppt_slides
      = (workbook_views.filter fun v => ppt_slides.contains v).map
          (fun v => v ++ ".png") :=
    export_images_loop_eq _ _ _
  have hfilter : workbook_views.filter (fun v => other_slides.contains v)
      = workbook_views.filter (fun v => ppt_slides.contains v) := by
    apply List.filter_congr
    intro a _
    rw [Bool.eq_iff_iff]
    simp only [List.contains, List.elem_iff]
    exact hset a
  rw [h1, h2, hfilter]

/-- C7 witness: the indexed list, not the directory listing, is what later
stages receive. -/
theorem C7_export_views_witness :
    get_images ["stray_file.png"] (export_images ["A", "B"] ["B"])
      = export_images ["A", "B"] ["B"] :=
  (C7_export_views ["A", "B"] ["B"]).2.1 ["stray_file.png"]

/-- C8: after a successful run that exported one view, the cleanup step
removes only the `slide_imgs` subdirectory contents, leaving the exported
view image and CSV extract in the run's scratch directory (so the scratch
directory still exists); moreover, on a path that fails at workbook
resolution (step index 2), the cleanup step is never attempted, since the
script has no try/finally. -/
theorem C8_cleanup_leftover :
    run_leftover_files "run1" ["SalesView"] ["SalesView"]
      = [⟨Dir.scratch "run1", "SalesView.png"⟩,
         ⟨Dir.scratch "run1", "SalesView.csv"⟩] ∧
    "cleanup" ∉ export_main_trace (some 2) := by
  decide

/-- C9 counterexample: when workbook resolution (step index 2 of the
export script) raises, the script never reaches its `sign_out` call —
there is no try/finally around the `__main__` body. -/
theorem C9_counterexample :
    "sign_out" ∉ export_main_trace (some 2) := by
  decide

/-- C9 (amended): the deactivation script signs out of every site session
on every path (its per-site body is wrapped in try/except/finally), while
the export script signs out only when no earlier statement raises: on a
failing path it reaches `sign_out` only if the failing step is `sign_out`
itself (index 10). -/
theorem C9_sign_out_paths (f : Option Nat) (k : Nat) :
    "sign_out" ∈ deactivation_site_trace f ∧
    "sign_out" ∈ export_main_trace none ∧
    (k < export_main_steps.length →
      ("sign_out" ∈ export_main_trace (some k) ↔ k = 10)) := by
  refine ⟨?_, by decide, ?_⟩
  · rcases f with _ | k2
    · simp [deactivation_site_trace]
    · simp [deactivation_site_trace]
  · intro hk
    have h11 : export_main_steps.length = 11 := rfl
    rw [h11] at hk
    interval_cases k <;> decide

/-- C9 witness: a site run whose body fails at its fourth statement still
signs out, and an export run failing at workbook resolution does not. -/
theorem C9_sign_out_paths_witness :
    "sign_out" ∈ deactivation_site_trace (some 3) ∧
    ("sign_out" ∈ export_main_trace (some 2) ↔ 2 = 10) :=
  ⟨(C9_sign_out_paths (some 3) 2).1,
   (C9_sign_out_paths (some 3) 2).2.2 (by decide)⟩

/-- C10: a user deactivated by the script was a Viewer with a non-null
last sign-in strictly more than 500 days (in whole elapsed days) before
now, and a user who never signed in is never classified inactive. -/
theorem C10_deactivation (now : Int) (user_list : List User) (u : User) :
    (u ∈ deactivate_users (get_inactive_users now (viewer_filter user_list)) →
      ∃ v, v ∈ user_list ∧ v.site_role = "Viewer" ∧
        ∃ t, v.last_login = some t ∧
          INACTIVE_THRESHOLD < Int.fdiv (now - t) seconds_per_day ∧
          u = { v with site_role := "Unlicensed" }) ∧
    (u.last_login = none → u ∉ get_inactive_users now (viewer_filter user_list)) := by
  constructor
  · intro hu
    rcases List.mem_map.mp hu with ⟨v, hv, rfl⟩
    rcases List.mem_filter.mp hv with ⟨hvf, hcond⟩
    rcases List.mem_filter.mp hvf with ⟨hmem, hrole⟩
    refine ⟨v, hmem, by simpa using hrole, ?_⟩
    cases hl : v.last_login with
    | none =>
      rw [hl] at hcond
      simp at hcond
    | some t =>
      refine ⟨t, rfl, ?_, rfl⟩
      rw [hl] at hcond
      simpa using hcond
  · intro hnone hmem
    have hcond := (List.mem_filter.mp hmem).2
    rw [hnone] at hcond
    simp at hcond

/-- A viewer account that has never signed in. -/
def ghostUser : User := ⟨7, "ghost", "Viewer", none⟩

/-- C10 witness: the never-signed-in viewer is not classified inactive,
even 501 days into the run. -/
theorem C10_deactivation_witness :
    ghostUser ∉ get_inactive_users 43286400 (viewer_filter [ghostUser]) :=
  (C10_deactivation 43286400 [ghostUser] ghostUser).2 rfl

end Automations
